import Mathlib

/-!
Verification of the backup/retention/restore subsystem of
`scripts/backup_database.py` (peptide-plus repository).

The Python script is shallowly embedded: each function is translated into a
pure Lean function over explicit state.  External effects (subprocess calls,
the filesystem, clock reads) are supplied through small environment records,
and observable side effects (manifest writes, file deletions, the lifetime of
the temporary decompressed file during restore) are returned explicitly.
-/

namespace BackupDB

/-! ## Retention policy (`RETENTION`, lines 68-72)

`RETENTION = {"daily": 14, "weekly": 8, "monthly": 6}` -/

def RETENTION_daily : Int := 14

def RETENTION_weekly : Int := 8

def RETENTION_monthly : Int := 6

/-! ## Backup-file metadata

`cleanup_old_backups` reads, for each `peptide_*.sql.gz` file: its mtime
(as a datetime, giving `.day` and `.weekday()`) and its size.  We carry the
mtime both as epoch seconds (for the age computation) and as the calendar
fields the conditionals read. -/

structure FileMeta where
  name : String
  /-- file modification time, seconds since the epoch -/
  mtimeSec : Int
  /-- day-of-month of the mtime (`datetime.day`, in 1..31) -/
  day : Nat
  /-- Python `datetime.weekday()`: 0 = Monday, ..., 6 = Sunday -/
  weekday : Nat
  sizeBytes : Nat
deriving Repr, DecidableEq

/-- age in whole days, `age_days = (now - mtime).days` (line 509).  Python's `timedelta.days`
floors the difference toward minus infinity, hence `Int.fdiv`. -/
def ageDays (nowSec : Int) (f : FileMeta) : Int :=
  (nowSec - f.mtimeSec).fdiv 86400

/-- The per-file keep decision of `cleanup_old_backups` (lines 512-524),
evaluated in source order, first match winning:
monthly (`mtime.day <= 1 and age_days <= RETENTION["monthly"] * 30`), then
weekly (`mtime.weekday() == 6 and age_days <= RETENTION["weekly"] * 7`), then
daily (`age_days <= RETENTION["daily"]`), else remove. -/
def keepBackup (nowSec : Int) (f : FileMeta) : Bool :=
  if f.day ≤ 1 ∧ ageDays nowSec f ≤ RETENTION_monthly * 30 then true
  else if f.weekday = 6 ∧ ageDays nowSec f ≤ RETENTION_weekly * 7 then true
  else if ageDays nowSec f ≤ RETENTION_daily then true
  else false

/-- The keep decision as the specification words it (spec §4.2): keep when the
day-of-month is the 1st and age is within the monthly window, else when the
weekday is Sunday and age is within the weekly window, else when age is within
the daily window; otherwise remove. -/
def keepSpec (nowSec : Int) (f : FileMeta) : Bool :=
  if f.day = 1 ∧ ageDays nowSec f ≤ RETENTION_monthly * 30 then true
  else if f.weekday = 6 ∧ ageDays nowSec f ≤ RETENTION_weekly * 7 then true
  else if ageDays nowSec f ≤ RETENTION_daily then true
  else false

/-! ## Manifest

`_load_manifest` / `_save_manifest` read and write a JSON document
`{backups: [...], last_local, last_production, last_cleanup}`.  The backups
list holds the result dicts appended by the dump functions. -/

structure DumpResult where
  /-- the `result["type"]` field: "local" or "production" -/
  btype : String
  timestamp : String
  source : Option String
  status : String
  /-- error text, kept as a character list so substring facts can be stated -/
  error : Option (List Char)
  filename : Option String
  sizeBytes : Option Nat
  sha256 : Option String
deriving Repr, DecidableEq

structure Manifest where
  backups : List DumpResult
  lastLocal : Option String
  lastProduction : Option String
  lastCleanup : Option String
deriving Repr, DecidableEq

/-! ## cleanup_old_backups (lines 501-549)

The function walks the backup files, keeps or unlinks each one per
`keepBackup`, then rewrites the manifest with `last_cleanup = now`.
`keptFiles` is the set of files surviving on disk; `removedFiles` the deleted
ones (the source records name, size and age for each). -/

structure CleanupOutcome where
  keptFiles : List FileMeta
  removedFiles : List FileMeta
  keptCount : Nat
  removedCount : Nat
  freedBytes : Nat
  manifest : Manifest
deriving Repr, DecidableEq

def cleanupOldBackups (nowSec : Int) (nowIso : String) (files : List FileMeta)
    (m : Manifest) : CleanupOutcome :=
  let keptFiles := files.filter (fun f => keepBackup nowSec f)
  let removedFiles := files.filter (fun f => ! keepBackup nowSec f)
  { keptFiles := keptFiles
    removedFiles := removedFiles
    keptCount := keptFiles.length
    removedCount := removedFiles.length
    freedBytes := (removedFiles.map (fun f => f.sizeBytes)).sum
    manifest := { m with lastCleanup := some nowIso } }

/-! ## Subprocess outcomes

Every external call is a `subprocess.run` inside a `try` block; the outcome is
either a completed process (return code + stderr) or one of the exceptions the
source catches. -/

inductive ProcOutcome where
  /-- the process completed with this return code and stderr text -/
  | ret (rc : Int) (stderr : List Char)
  /-- outcome where `subprocess.TimeoutExpired` was raised; payload is `str(e)`, used by
  the callers that only have a generic `except Exception` handler -/
  | timeoutExpired (msg : List Char)
  /-- outcome where `FileNotFoundError` was raised (executable missing); payload is
  `str(e)`, used by callers without a dedicated handler for it -/
  | fileNotFound (msg : List Char)
  /-- any other exception, with `str(e)` -/
  | exc (msg : List Char)
deriving Repr, DecidableEq

/-! ## backup_local_db (lines 153-234) -/

structure LocalEnv where
  /-- outcome of the `pg_dump` call (the `docker ps` probe only logs) -/
  pgDump : ProcOutcome
  /-- SHA256 of the compressed file, computed on the success path -/
  sha256 : String
  /-- size of the compressed file, read on the success path -/
  sizeBytes : Nat
deriving Repr, DecidableEq

/-- embedding of `backup_local_db()`: `ts` is the filename timestamp, `nowIso` the
`datetime.now().isoformat()` written to `last_local`.  Returns the result
dict and the manifest after the call (the manifest file is rewritten only on
the success path, lines 212-216). -/
def backupLocalDb (ts nowIso : String) (env : LocalEnv) (m : Manifest) :
    DumpResult × Manifest :=
  let base : DumpResult :=
    { btype := "local", timestamp := ts
      source := some "localhost:5433/peptide_plus"
      status := "", error := none, filename := none
      sizeBytes := none, sha256 := none }
  match env.pgDump with
  | .ret rc stderr =>
    if rc ≠ 0 then
      ({ base with status := "error", error := some (stderr.take 500) }, m)
    else
      let r := { base with
        status := "success"
        filename := some ("peptide_local_" ++ ts ++ ".sql.gz")
        sizeBytes := some env.sizeBytes
        sha256 := some env.sha256 }
      (r, { m with backups := m.backups ++ [r], lastLocal := some nowIso })
  | .timeoutExpired _ =>
    ({ base with status := "error",
                 error := some ("pg_dump timed out (>5 min)".toList) }, m)
  | .fileNotFound _ =>
    ({ base with status := "error",
                 error := some ("pg_dump not found. Install: brew install postgresql".toList) }, m)
  | .exc msg =>
    ({ base with status := "error", error := some msg }, m)

/-! ## backup_production_db (lines 237-304) -/

structure ProdEnv where
  /-- result of `_get_production_db_url()`: the DATABASE_URL line of `.env`, when found -/
  dbUrl : Option (List Char)
  pgDump : ProcOutcome
  sha256 : String
  sizeBytes : Nat
deriving Repr, DecidableEq

/-- the masking step `error.replace(db_url, "***")` guarded by `if db_url in error`
(lines 267-268).  Python `str.replace` semantics on character lists:
left-to-right, non-overlapping. -/
def pyReplace (p r : List Char) : List Char → List Char
  | [] => []
  | c :: rest =>
    if p ≠ [] ∧ p <+: (c :: rest) then
      r ++ pyReplace p r (List.drop (p.length - 1) rest)
    else
      c :: pyReplace p r rest
termination_by s => s.length
decreasing_by
  · simp only [List.length_drop, List.length_cons]
    omega
  · simp

/-- the mask written over the connection string -/
def STARS : List Char := ['*', '*', '*']

/-- lines 266-268: truncate stderr to 500 characters, then mask the
connection string if it occurs in the truncation. -/
def maskProdError (dbUrl stderr : List Char) : List Char :=
  let error := stderr.take 500
  if dbUrl <:+: error then pyReplace dbUrl STARS error else error

/-- embedding of `backup_production_db()`.  When `.env` yields no DATABASE_URL (or an empty
one — falsy in Python), the function errors out before any subprocess call. -/
def backupProductionDb (ts nowIso : String) (env : ProdEnv) (m : Manifest) :
    DumpResult × Manifest :=
  let base : DumpResult :=
    { btype := "production", timestamp := ts
      source := none, status := "", error := none, filename := none
      sizeBytes := none, sha256 := none }
  match env.dbUrl with
  | none =>
    ({ base with status := "error",
                 error := some ("Production DATABASE_URL not found in .env".toList) }, m)
  | some u =>
    if u = [] then
      ({ base with status := "error",
                   error := some ("Production DATABASE_URL not found in .env".toList) }, m)
    else
      let base := { base with source := some "azure_production" }
      match env.pgDump with
      | .ret rc stderr =>
        if rc ≠ 0 then
          ({ base with status := "error", error := some (maskProdError u stderr) }, m)
        else
          let r := { base with
            status := "success"
            filename := some ("peptide_production_" ++ ts ++ ".sql.gz")
            sizeBytes := some env.sizeBytes
            sha256 := some env.sha256 }
          (r, { m with backups := m.backups ++ [r], lastProduction := some nowIso })
      | .timeoutExpired _ =>
        ({ base with status := "error",
                     error := some ("Production pg_dump timed out (>10 min)".toList) }, m)
      | .fileNotFound msg =>
        -- no dedicated handler here: caught by the generic `except Exception`
        ({ base with status := "error", error := some msg }, m)
      | .exc msg =>
        ({ base with status := "error", error := some msg }, m)

/-! ## upload_to_azure (lines 307-355) -/

structure UploadEnv where
  /-- result of `_get_azure_connection_string()` from the keychain -/
  connStr : Option (List Char)
  /-- outcome of the `az storage blob upload` call (the container-create
  call's result is ignored by the source) -/
  azUpload : ProcOutcome
deriving Repr, DecidableEq

structure UploadResult where
  status : String
  error : Option (List Char)
deriving Repr, DecidableEq

/-- embedding of `upload_to_azure()`: on a non-zero exit the connection string is masked
before truncation (line 349-350: `proc.stderr.replace(conn_str, "***")`
then `[:500]`). -/
def uploadToAzure (env : UploadEnv) : UploadResult :=
  match env.connStr with
  | none =>
    { status := "error",
      error := some ("Azure connection string not found in Keychain".toList) }
  | some conn =>
    match env.azUpload with
    | .ret rc stderr =>
      if rc = 0 then { status := "uploaded", error := none }
      else { status := "error", error := some ((pyReplace conn STARS stderr).take 500) }
    | .fileNotFound _ =>
      { status := "error",
        error := some ("az CLI not found. Install: brew install azure-cli".toList) }
    | .timeoutExpired msg =>
      -- no dedicated handler here: caught by the generic `except Exception`
      { status := "error", error := some msg }
    | .exc msg => { status := "error", error := some msg }

/-! ## verify_backup (lines 443-494) -/

/-- The dump-format markers scanned for in the first lines (lines 479-482). -/
def SQL_MARKERS : List (List Char) :=
  [ "PostgreSQL".toList, "CREATE TABLE".toList, "INSERT INTO".toList,
    "pg_dump".toList, "SET statement_timeout".toList ]

structure VerifyEnv where
  fileExists : Bool
  sizeBytes : Nat
  /-- SHA256 of the file (`_sha256`, assumed to succeed on a readable file) -/
  sha256 : String
  /-- whether the path ends in `.gz` -/
  endsGz : Bool
  /-- whether `gzip.open` + reading raises no exception -/
  readOk : Bool
  /-- the decompressed text split into lines (each including its newline),
  read only for `.gz` files -/
  lines : List (List Char)
deriving Repr, DecidableEq

/-- The result dict of `verify_backup`.  `none` fields were never assigned,
i.e. the corresponding check was not performed. -/
structure VerifyResult where
  status : String
  error : Option String
  sizeBytes : Option Nat
  sha256 : Option String
  validSql : Option Bool
  preview : Option (List Char)
deriving Repr, DecidableEq

/-- embedding of `verify_backup()`.  The loop at lines 472-476 appends lines for indices
0..10 (it breaks after appending the line with `i >= 10`), i.e. the first 11
lines; `has_sql` asks whether any marker is a substring of their
concatenation; status is `"verified"` when `valid_sql` is true, else
`"warning"` (line 488). -/
def verifyBackup (env : VerifyEnv) : VerifyResult :=
  if env.fileExists = false then
    { status := "error", error := some "File not found", sizeBytes := none,
      sha256 := none, validSql := none, preview := none }
  else if env.sizeBytes = 0 then
    { status := "error", error := some "File is empty",
      sizeBytes := some env.sizeBytes, sha256 := none, validSql := none,
      preview := none }
  else if env.endsGz then
    if env.readOk = false then
      -- the exception from gzip lands in `except Exception` (line 491):
      -- fields assigned before the raise (size, sha) are already in `result`
      { status := "error", error := some "gzip read failed",
        sizeBytes := some env.sizeBytes, sha256 := some env.sha256,
        validSql := none, preview := none }
    else
      let contentPreview := (env.lines.take 11).flatten
      let hasSql := SQL_MARKERS.any (fun kw => decide (kw <:+: contentPreview))
      { status := if hasSql then "verified" else "warning", error := none,
        sizeBytes := some env.sizeBytes, sha256 := some env.sha256,
        validSql := some hasSql, preview := some (contentPreview.take 200) }
  else
    -- line 486: `result["valid_sql"] = True  # Assume valid for non-gz`
    { status := "verified", error := none, sizeBytes := some env.sizeBytes,
      sha256 := some env.sha256, validSql := some true, preview := none }

/-! ## restore_from_backup (lines 362-429)

Beside the returned result dict, the embedding reports two facts about the
side effects: whether the external restore utility (`psql`) was invoked, and
whether the temporary decompressed `.sql` file still exists when the function
returns (`tempLeft`).  For a `.gz` input the temp file is created at
lines 386-389 and unlinked only at lines 413-415, which run after the `psql`
call returns; every `return` before that point, and the `except` path, leave
the file behind.  For a non-`.gz` input `sql_file` is the input itself and is
never unlinked. -/

structure RestoreEnv where
  fileExists : Bool
  /-- whether the path ends in `.gz` -/
  endsGz : Bool
  /-- the `target` argument -/
  target : String
  /-- result of `_get_production_db_url()` at restore time -/
  dbUrl : Option (List Char)
  /-- outcome of the `psql` call -/
  psql : ProcOutcome
deriving Repr, DecidableEq

structure RestoreExec where
  status : String
  error : Option (List Char)
  /-- whether the `psql` invocation was reached -/
  invoked : Bool
  /-- whether the temporary decompressed `.sql` file (created for a `.gz`
  input) still exists when the function returns -/
  tempLeft : Bool
deriving Repr, DecidableEq

/-- shared continuation for both targets once `psql` runs: cleanup at
lines 413-415, then status by return code; exceptions skip the cleanup. -/
def runPsql (endsGz : Bool) (outcome : ProcOutcome) : RestoreExec :=
  match outcome with
  | .ret rc stderr =>
    if rc = 0 then
      { status := "restored", error := none, invoked := true, tempLeft := false }
    else
      { status := "error", error := some (stderr.take 500), invoked := true,
        tempLeft := false }
  | .timeoutExpired msg =>
    -- only the generic `except Exception` handler exists here (line 426)
    { status := "error", error := some msg, invoked := true, tempLeft := endsGz }
  | .fileNotFound msg =>
    { status := "error", error := some msg, invoked := true, tempLeft := endsGz }
  | .exc msg =>
    { status := "error", error := some msg, invoked := true, tempLeft := endsGz }

def restoreFromBackup (env : RestoreEnv) : RestoreExec :=
  if env.fileExists = false then
    { status := "error", error := some ("File not found".toList),
      invoked := false, tempLeft := false }
  else
    -- hash computed (line 381); decompression to the temp file when `.gz`
    if env.target = "local" then
      runPsql env.endsGz env.psql
    else if env.target = "production" then
      match env.dbUrl with
      | none =>
        -- line 406: early return, the temp file is not unlinked
        { status := "error", error := some ("Production DATABASE_URL not found".toList),
          invoked := false, tempLeft := env.endsGz }
      | some u =>
        if u = [] then
          { status := "error", error := some ("Production DATABASE_URL not found".toList),
            invoked := false, tempLeft := env.endsGz }
        else
          runPsql env.endsGz env.psql
    else
      -- line 411: early return, the temp file is not unlinked
      { status := "error", error := some ("Unknown target: ".toList ++ env.target.toList),
        invoked := false, tempLeft := env.endsGz }

/-! ## Concrete example inputs (used by witnesses and counterexamples) -/

def exManifest : Manifest :=
  { backups := [], lastLocal := none, lastProduction := none, lastCleanup := none }

/-- a backup file written just now (age 0 days, a Wednesday the 7th) -/
def exFileFresh : FileMeta :=
  { name := "peptide_local_20260107_080000.sql.gz", mtimeSec := 0, day := 7,
    weekday := 2, sizeBytes := 100 }

/-- a backup file 100 days old, mid-month, mid-week -/
def exFileOld : FileMeta :=
  { name := "peptide_local_20250929_080000.sql.gz", mtimeSec := 0, day := 29,
    weekday := 0, sizeBytes := 100 }

def exVerifyEmpty : VerifyEnv :=
  { fileExists := true, sizeBytes := 0, sha256 := "", endsGz := true,
    readOk := true, lines := [] }

def exVerifyPlainSql : VerifyEnv :=
  { fileExists := true, sizeBytes := 5, sha256 := "abc", endsGz := false,
    readOk := true, lines := [] }

/-- a readable `.gz` whose first lines carry none of the dump markers -/
def exVerifyNoMarker : VerifyEnv :=
  { fileExists := true, sizeBytes := 5, sha256 := "abc", endsGz := true,
    readOk := true, lines := ["hello\n".toList, "world\n".toList] }

def exRestoreLocalFail : RestoreEnv :=
  { fileExists := true, endsGz := true, target := "local", dbUrl := none,
    psql := .ret 1 ("oops".toList) }

/-- restore of a `.gz` to production while `.env` has no DATABASE_URL -/
def c3EnvNoUrl : RestoreEnv :=
  { fileExists := true, endsGz := true, target := "production", dbUrl := none,
    psql := .ret 0 [] }

/-- restore of a `.gz` to a misspelled target -/
def c3EnvBadTarget : RestoreEnv :=
  { fileExists := true, endsGz := true, target := "staging", dbUrl := none,
    psql := .ret 0 [] }

/-- restore of a `.gz` whose `psql` call times out -/
def c3EnvTimeout : RestoreEnv :=
  { fileExists := true, endsGz := true, target := "local", dbUrl := none,
    psql := .timeoutExpired ("Command timed out after 600 seconds".toList) }

/-- a local dump attempt on which `pg_dump` exits non-zero -/
def c4FailLocal : LocalEnv :=
  { pgDump := .ret 1 ("pg_dump: error: connection failed".toList),
    sha256 := "", sizeBytes := 0 }

/-- a production dump attempt on which `pg_dump` exits non-zero -/
def c4FailProd : ProdEnv :=
  { dbUrl := some ("postgresql://x".toList),
    pgDump := .ret 1 ("boom".toList), sha256 := "", sizeBytes := 0 }

/-- a resolved production connection string -/
def c5Url : List Char := "postgresql://user:pw@prod.example/db".toList

/-- a `psql` stderr that echoes the connection string -/
def c5Stderr : List Char :=
  ("psql: error: could not connect: postgresql://user:pw@prod.example/db refused").toList

/-- production restore where `psql` fails and its stderr holds the URL -/
def c5RestoreEnv : RestoreEnv :=
  { fileExists := true, endsGz := true, target := "production",
    dbUrl := some c5Url, psql := .ret 1 c5Stderr }

/-!
# Theorems
-/

/-! ### C1: retention bucket priority order -/

lemma keepBackup_eq_keepSpec {nowSec : Int} {f : FileMeta} (h : 1 ≤ f.day) :
    keepBackup nowSec f = keepSpec nowSec f := by
  unfold keepBackup keepSpec
  have hd : f.day ≤ 1 ↔ f.day = 1 := by omega
  simp only [hd]

/-- C1: the keep decision follows the spec's bucket cascade — first match
wins among: day-of-month 1 with age ≤ monthly*30, Sunday with age ≤ weekly*7,
age ≤ daily — and a file matching no bucket is deleted by the cleanup
(`removedFiles`); age is whole days from mtime to evaluation time (both sides
use `ageDays`). -/
theorem c1_retention_bucket_priority (nowSec : Int) (nowIso : String)
    (m : Manifest) (files : List FileMeta)
    (hday : ∀ f ∈ files, 1 ≤ f.day) :
    (∀ f ∈ files, keepBackup nowSec f = keepSpec nowSec f) ∧
    (cleanupOldBackups nowSec nowIso files m).keptFiles
      = files.filter (fun f => keepSpec nowSec f) ∧
    (cleanupOldBackups nowSec nowIso files m).removedFiles
      = files.filter (fun f => ! keepSpec nowSec f) := by
  have hk : ∀ f ∈ files, keepBackup nowSec f = keepSpec nowSec f :=
    fun f hf => keepBackup_eq_keepSpec (hday f hf)
  refine ⟨hk, ?_, ?_⟩
  · exact List.filter_congr hk
  · exact List.filter_congr (fun f hf => by rw [hk f hf])

/-- C1 witness at two concrete files (ages 0 and 100 days). -/
theorem c1_retention_bucket_priority_witness :
    (∀ f ∈ [exFileFresh, exFileOld], 1 ≤ f.day) ∧
    ((∀ f ∈ [exFileFresh, exFileOld], keepBackup 0 f = keepSpec 0 f) ∧
     (cleanupOldBackups 0 "2026-01-07" [exFileFresh, exFileOld] exManifest).keptFiles
       = [exFileFresh, exFileOld].filter (fun f => keepSpec 0 f) ∧
     (cleanupOldBackups 0 "2026-01-07" [exFileFresh, exFileOld] exManifest).removedFiles
       = [exFileFresh, exFileOld].filter (fun f => ! keepSpec 0 f)) :=
  ⟨by decide,
   c1_retention_bucket_priority 0 "2026-01-07" exManifest [exFileFresh, exFileOld]
     (by decide)⟩

/-! ### C2: cleanup is idempotent -/

/-- C2: rerunning the cleanup at the same evaluation time on the files the
first run kept removes nothing, keeps exactly the same set, and every kept
file's decision is again "keep". -/
theorem c2_cleanup_idempotent (nowSec : Int) (nowIso : String)
    (files : List FileMeta) (m : Manifest) :
    (cleanupOldBackups nowSec nowIso
        (cleanupOldBackups nowSec nowIso files m).keptFiles m).removedFiles = [] ∧
    (cleanupOldBackups nowSec nowIso
        (cleanupOldBackups nowSec nowIso files m).keptFiles m).keptFiles
      = (cleanupOldBackups nowSec nowIso files m).keptFiles ∧
    (∀ f ∈ (cleanupOldBackups nowSec nowIso files m).keptFiles,
      keepBackup nowSec f = true) := by
  simp only [cleanupOldBackups]
  refine ⟨?_, ?_, ?_⟩
  · simp [List.filter_filter]
  · simp [List.filter_filter]
  · intro f hf
    exact (List.mem_filter.mp hf).2

/-! ### C8: anything inside the daily window survives -/

/-- C8: a file whose age in whole days is at most the daily window (14) is
kept, whatever its weekday and day-of-month. -/
theorem c8_daily_window_always_kept (nowSec : Int) (f : FileMeta)
    (h : ageDays nowSec f ≤ RETENTION_daily) : keepBackup nowSec f = true := by
  simp only [RETENTION_daily] at h
  unfold keepBackup
  simp only [RETENTION_daily, RETENTION_weekly, RETENTION_monthly]
  split_ifs <;> rfl

/-- C8 witness at a concrete file of age 0 on a Wednesday the 7th. -/
theorem c8_daily_window_always_kept_witness :
    ageDays 0 exFileFresh ≤ RETENTION_daily ∧ keepBackup 0 exFileFresh = true :=
  ⟨by decide, c8_daily_window_always_kept 0 exFileFresh (by decide)⟩

/-! ### C9: the cleanup's manifest frame -/

/-- C9: every cleanup run (even one that removes nothing) sets the manifest's
`last_cleanup` to the current time and leaves the backups list, `last_local`
and `last_production` exactly as they were. -/
theorem c9_cleanup_manifest_frame (nowSec : Int) (nowIso : String)
    (files : List FileMeta) (m : Manifest) :
    (cleanupOldBackups nowSec nowIso files m).manifest.lastCleanup = some nowIso ∧
    (cleanupOldBackups nowSec nowIso files m).manifest.backups = m.backups ∧
    (cleanupOldBackups nowSec nowIso files m).manifest.lastLocal = m.lastLocal ∧
    (cleanupOldBackups nowSec nowIso files m).manifest.lastProduction
      = m.lastProduction :=
  ⟨rfl, rfl, rfl, rfl⟩

/-! ### C6: an empty file is an integrity error, and later checks halt -/

/-- C6: for an existing file of size exactly 0 bytes, `verify_backup` returns
status `"error"` with "File is empty", and neither the hash recomputation nor
the decompression/marker scan happens (those result fields stay unassigned). -/
theorem c6_empty_file_is_error (env : VerifyEnv)
    (hex : env.fileExists = true) (hsz : env.sizeBytes = 0) :
    verifyBackup env
      = { status := "error", error := some "File is empty",
          sizeBytes := some 0, sha256 := none, validSql := none,
          preview := none } := by
  unfold verifyBackup
  simp [hex, hsz]

/-- C6 witness at a concrete empty file. -/
theorem c6_empty_file_is_error_witness :
    exVerifyEmpty.fileExists = true ∧ exVerifyEmpty.sizeBytes = 0 ∧
    verifyBackup exVerifyEmpty
      = { status := "error", error := some "File is empty",
          sizeBytes := some 0, sha256 := none, validSql := none,
          preview := none } :=
  ⟨rfl, rfl, c6_empty_file_is_error exVerifyEmpty rfl rfl⟩

/-! ### C10: non-gz files are assumed valid -/

/-- C10: an existing non-empty file whose path does not end in `.gz` gets
`valid_sql = True` and status `"verified"` whatever its content (the result
does not depend on `env.lines`), so an uncompressed file can never be
`"warning"`. -/
theorem c10_non_gz_assumed_verified (env : VerifyEnv)
    (hex : env.fileExists = true) (hsz : env.sizeBytes ≠ 0)
    (hgz : env.endsGz = false) :
    verifyBackup env
      = { status := "verified", error := none,
          sizeBytes := some env.sizeBytes, sha256 := some env.sha256,
          validSql := some true, preview := none } := by
  unfold verifyBackup
  simp [hex, hsz, hgz]

/-- C10 witness at a concrete uncompressed file. -/
theorem c10_non_gz_assumed_verified_witness :
    exVerifyPlainSql.fileExists = true ∧ exVerifyPlainSql.sizeBytes ≠ 0 ∧
    exVerifyPlainSql.endsGz = false ∧
    verifyBackup exVerifyPlainSql
      = { status := "verified", error := none,
          sizeBytes := some exVerifyPlainSql.sizeBytes,
          sha256 := some exVerifyPlainSql.sha256,
          validSql := some true, preview := none } :=
  ⟨rfl, by decide, rfl,
   c10_non_gz_assumed_verified exVerifyPlainSql rfl (by decide) rfl⟩

/-! ### C7: marker-less gz is a warning, yet restore still proceeds -/

/-- C7: a readable, non-empty `.gz` whose first ~10 decompressed lines carry
no recognized dump marker verifies as `"warning"`, while a restore of a `.gz`
file to the local target still reaches the `psql` invocation — the restore
path never consults the marker heuristic (its environment does not even read
the file's content). -/
theorem c7_warning_but_restore_proceeds (env : VerifyEnv) (renv : RestoreEnv)
    (hex : env.fileExists = true) (hsz : env.sizeBytes ≠ 0)
    (hgz : env.endsGz = true) (hread : env.readOk = true)
    (hmark : ∀ kw ∈ SQL_MARKERS, ¬ kw <:+: (env.lines.take 11).flatten)
    (hrex : renv.fileExists = true) (hrt : renv.target = "local") :
    (verifyBackup env).status = "warning" ∧
    (restoreFromBackup renv).invoked = true := by
  constructor
  · unfold verifyBackup
    simp only [hex, hsz, hgz, hread]
    have hany : SQL_MARKERS.any
        (fun kw => decide (kw <:+: (env.lines.take 11).flatten)) = false := by
      rw [List.any_eq_false]
      intro kw hkw
      simpa using hmark kw hkw
    simp [hany]
  · unfold restoreFromBackup
    simp only [hrex, hrt]
    cases h : renv.psql <;> simp [runPsql] <;> split_ifs <;> rfl

/-- C7 witness: a gz of plain greetings verifies as warning; restoring a gz
file to local with a failing `psql` still invokes it. -/
theorem c7_warning_but_restore_proceeds_witness :
    (∀ kw ∈ SQL_MARKERS, ¬ kw <:+: (exVerifyNoMarker.lines.take 11).flatten) ∧
    (verifyBackup exVerifyNoMarker).status = "warning" ∧
    (restoreFromBackup exRestoreLocalFail).invoked = true :=
  ⟨by decide,
   (c7_warning_but_restore_proceeds exVerifyNoMarker exRestoreLocalFail rfl
      (by decide) rfl rfl (by decide) rfl rfl).1,
   (c7_warning_but_restore_proceeds exVerifyNoMarker exRestoreLocalFail rfl
      (by decide) rfl rfl (by decide) rfl rfl).2⟩

/-! ### C3: restore temp-file cleanup (fails on the early-return paths) -/

/-- C3 counterexample: the claim says the temporary decompressed `.sql` file
is deleted on every exit path, including the unresolved-production-URL path,
the unknown-target path and exception paths.  On all three the source returns
(or propagates through `except`) before the `unlink` at lines 413-415, so the
temp file is still on disk. -/
theorem c3_temp_cleanup_counterexample :
    ((restoreFromBackup c3EnvNoUrl).status = "error" ∧
      (restoreFromBackup c3EnvNoUrl).tempLeft = true) ∧
    ((restoreFromBackup c3EnvBadTarget).status = "error" ∧
      (restoreFromBackup c3EnvBadTarget).tempLeft = true) ∧
    ((restoreFromBackup c3EnvTimeout).status = "error" ∧
      (restoreFromBackup c3EnvTimeout).tempLeft = true) := by
  refine ⟨⟨rfl, rfl⟩, ⟨rfl, rfl⟩, ⟨rfl, rfl⟩⟩

/-- C3 amended: the temporary decompressed file is deleted on every path on
which the restore utility runs to completion — local target, or production
target with a resolved (non-empty) URL — including the non-zero-exit path;
it is not deleted on the unresolved-URL, unknown-target, or exception
paths. -/
theorem c3_temp_cleanup_amended (env : RestoreEnv) (rc : Int)
    (serr : List Char)
    (hex : env.fileExists = true)
    (hp : env.psql = ProcOutcome.ret rc serr)
    (ht : env.target = "local" ∨
      (env.target = "production" ∧ ∃ u, env.dbUrl = some u ∧ u ≠ [])) :
    (restoreFromBackup env).tempLeft = false := by
  unfold restoreFromBackup
  rcases ht with hl | ⟨hpr, u, hu, hune⟩
  · simp only [hex, hl]
    simp [runPsql, hp]
    split_ifs <;> rfl
  · simp only [hex, hpr]
    simp only [show ("production" = "local") = False by simp, if_neg, hu]
    simp [hune, runPsql, hp]
    split_ifs <;> rfl

/-- C3 amended witness: a failing local restore of a `.gz` file still cleans
up the temp file. -/
theorem c3_temp_cleanup_amended_witness :
    exRestoreLocalFail.fileExists = true ∧
    exRestoreLocalFail.psql = ProcOutcome.ret 1 ("oops".toList) ∧
    exRestoreLocalFail.target = "local" ∧
    (restoreFromBackup exRestoreLocalFail).tempLeft = false :=
  ⟨rfl, rfl, rfl,
   c3_temp_cleanup_amended exRestoreLocalFail 1 ("oops".toList) rfl rfl
     (Or.inl rfl)⟩

/-! ### C4: manifest append happens only on success -/

/-- C4 amended: a dump attempt appends its BackupRecord to the manifest and
stamps `last_local` (resp. `last_production`) exactly when the attempt
succeeds; on any failed attempt the manifest is left untouched (no record of
the failure is persisted). -/
theorem c4_manifest_append_on_success (ts nowIso : String)
    (envL : LocalEnv) (envP : ProdEnv) (m : Manifest) :
    ((backupLocalDb ts nowIso envL m).2
      = if (backupLocalDb ts nowIso envL m).1.status = "success"
        then { m with backups := m.backups ++ [(backupLocalDb ts nowIso envL m).1],
                      lastLocal := some nowIso }
        else m) ∧
    ((backupProductionDb ts nowIso envP m).2
      = if (backupProductionDb ts nowIso envP m).1.status = "success"
        then { m with backups := m.backups ++ [(backupProductionDb ts nowIso envP m).1],
                      lastProduction := some nowIso }
        else m) := by
  constructor
  · unfold backupLocalDb
    cases envL.pgDump with
    | ret rc stderr =>
      by_cases hrc : rc = 0 <;> simp [hrc]
    | timeoutExpired msg => simp
    | fileNotFound msg => simp
    | exc msg => simp
  · unfold backupProductionDb
    cases hurl : envP.dbUrl with
    | none => simp
    | some u =>
      by_cases hu : u = []
      · simp [hu]
      · cases envP.pgDump with
        | ret rc stderr =>
          by_cases hrc : rc = 0 <;> simp [hrc, hu]
        | timeoutExpired msg => simp [hu]
        | fileNotFound msg => simp [hu]
        | exc msg => simp [hu]

/-- C4 counterexample: on a failed local dump attempt (`pg_dump` exits 1) no
BackupRecord is appended — starting from the empty manifest the backups list
is still empty — and likewise for a failed production dump attempt; the
claim's "whether the attempt succeeds or fails" is false. -/
theorem c4_manifest_append_counterexample :
    ((backupLocalDb "20260107_080000" "2026-01-07T08:00:00" c4FailLocal
        exManifest).1.status = "error" ∧
      (backupLocalDb "20260107_080000" "2026-01-07T08:00:00" c4FailLocal
        exManifest).2.backups = []) ∧
    ((backupProductionDb "20260107_080000" "2026-01-07T08:00:00" c4FailProd
        exManifest).1.status = "error" ∧
      (backupProductionDb "20260107_080000" "2026-01-07T08:00:00" c4FailProd
        exManifest).2.backups = []) := by
  refine ⟨⟨rfl, rfl⟩, ⟨rfl, rfl⟩⟩

/-! ### C5: secret scrubbing

Helper lemmas about `pyReplace`: once every occurrence of a pattern `p`
(nonempty, containing no `'*'`) is replaced by `"***"`, the pattern can no
longer occur in the text. -/

lemma pyReplace_nil (p r : List Char) : pyReplace p r [] = [] := by
  simp [pyReplace]

lemma pyReplace_cons (p r : List Char) (c : Char) (rest : List Char) :
    pyReplace p r (c :: rest)
      = if p ≠ [] ∧ p <+: (c :: rest) then
          r ++ pyReplace p r (List.drop (p.length - 1) rest)
        else c :: pyReplace p r rest := by
  simp [pyReplace]

/-- a star-free prefix of the replaced text is a prefix of the original. -/
lemma prefix_of_pyReplace (p : List Char) :
    ∀ (s q : List Char), '*' ∉ q → q <+: pyReplace p STARS s → q <+: s := by
  intro s
  induction s with
  | nil =>
    intro q _ h
    rw [pyReplace_nil] at h
    simpa using h
  | cons c rest ih =>
    intro q hq h
    rw [pyReplace_cons] at h
    by_cases hc : p ≠ [] ∧ p <+: (c :: rest)
    · rw [if_pos hc] at h
      simp only [STARS, List.cons_append, List.nil_append] at h
      match q, hq, h with
      | [], _, _ => exact List.nil_prefix
      | q0 :: q', hq, h =>
        exact absurd ((List.cons_prefix_cons.mp h).1 ▸ List.mem_cons_self q0 q') hq
    · rw [if_neg hc] at h
      match q, hq, h with
      | [], _, _ => exact List.nil_prefix
      | q0 :: q', hq, h =>
        obtain ⟨h0, h1⟩ := List.cons_prefix_cons.mp h
        have hq' : '*' ∉ q' := fun hm => hq (List.mem_cons_of_mem _ hm)
        exact List.cons_prefix_cons.mpr ⟨h0, ih q' hq' h1⟩

/-- a star-free pattern occurring in `'*' :: t` occurs in `t`. -/
lemma infix_drop_star {q : List Char} (hq : '*' ∉ q) {t : List Char}
    (h : q <:+: ('*' :: t)) : q <:+: t := by
  obtain ⟨a, b, hab⟩ := h
  cases a with
  | nil =>
    cases q with
    | nil => exact List.nil_infix
    | cons q0 q' =>
      exfalso
      simp only [List.nil_append, List.cons_append] at hab
      injection hab with h1 _
      exact hq (h1 ▸ List.mem_cons_self q0 q')
  | cons a0 a' =>
    simp only [List.cons_append] at hab
    injection hab with _ h2
    exact ⟨a', b, h2⟩

lemma pyReplace_no_self_occurrence_aux (p : List Char) (hp : p ≠ [])
    (hstar : '*' ∉ p) :
    ∀ (n : Nat) (s : List Char), s.length ≤ n →
      ¬ p <:+: pyReplace p STARS s := by
  intro n
  induction n with
  | zero =>
    intro s hs h
    have hnil : s = [] := List.length_eq_zero.mp (Nat.le_zero.mp hs)
    subst hnil
    rw [pyReplace_nil] at h
    exact hp (List.eq_nil_of_infix_nil h)
  | succ n ih =>
    intro s hs h
    cases s with
    | nil =>
      rw [pyReplace_nil] at h
      exact hp (List.eq_nil_of_infix_nil h)
    | cons c rest =>
      rw [pyReplace_cons] at h
      have hrest : rest.length ≤ n := by
        simp only [List.length_cons] at hs
        omega
      by_cases hc : p ≠ [] ∧ p <+: (c :: rest)
      · rw [if_pos hc] at h
        simp only [STARS, List.cons_append, List.nil_append] at h
        have h1 := infix_drop_star hstar (infix_drop_star hstar
          (infix_drop_star hstar h))
        refine ih (List.drop (p.length - 1) rest) ?_ h1
        simp only [List.length_drop]
        omega
      · rw [if_neg hc] at h
        obtain ⟨a, b, hab⟩ := h
        cases a with
        | nil =>
          simp only [List.nil_append, List.append_assoc] at hab
          have hpre : p <+: c :: pyReplace p STARS rest := ⟨b, hab⟩
          match p, hp, hstar, hpre with
          | p0 :: p', hp, hstar, hpre =>
            obtain ⟨h0, h1⟩ := List.cons_prefix_cons.mp hpre
            have hp'star : '*' ∉ p' := fun hm => hstar (List.mem_cons_of_mem _ hm)
            have h2 : p' <+: rest :=
              prefix_of_pyReplace (p0 :: p') rest p' hp'star h1
            exact hc ⟨hp, List.cons_prefix_cons.mpr ⟨h0, h2⟩⟩
        | cons a0 a' =>
          simp only [List.cons_append] at hab
          injection hab with _ h2
          exact ih rest hrest ⟨a', b, h2⟩

/-- a take of a list occurs within the list. -/
lemma take_within (n : Nat) (l : List Char) : l.take n <:+: l := by
  obtain ⟨t, ht⟩ := List.take_prefix n l
  exact ⟨[], t, by simpa using ht⟩

/-- after `pyReplace p "***"`, a nonempty star-free `p` occurs nowhere. -/
lemma pyReplace_no_self_occurrence (p : List Char) (hp : p ≠ []) (hstar : '*' ∉ p)
    (s : List Char) : ¬ p <:+: pyReplace p STARS s :=
  pyReplace_no_self_occurrence_aux p hp hstar s.length s le_rfl

/-- C5 counterexample: a production restore whose `psql` fails with a stderr
that echoes the connection string surfaces that stderr verbatim (line 422) —
the URL is a substring of the stored error text, so the claim's "always
scrubbed" is false for the restore operation. -/
theorem c5_restore_leaks_url_counterexample :
    (restoreFromBackup c5RestoreEnv).status = "error" ∧
    (restoreFromBackup c5RestoreEnv).error = some (c5Stderr.take 500) ∧
    c5Url <:+: c5Stderr.take 500 := by
  refine ⟨rfl, rfl, ?_⟩
  decide

/-- C5 amended: the production-dump and Azure-upload error paths do scrub —
when the resolved connection string is nonempty and contains no `'*'`, it is
not a substring of the surfaced error text — but the restore error path
surfaces raw truncated stderr, which can contain the production URL (see the
counterexample). -/
theorem c5_dump_and_upload_scrub_secrets (ts nowIso sha : String) (sz : Nat)
    (u serrDump serrUp : List Char) (rcDump rcUp : Int) (m : Manifest)
    (hne : u ≠ []) (hstar : '*' ∉ u)
    (hrcD : rcDump ≠ 0) (hrcU : rcUp ≠ 0) :
    (∀ e, (backupProductionDb ts nowIso
        ⟨some u, .ret rcDump serrDump, sha, sz⟩ m).1.error = some e →
      ¬ u <:+: e) ∧
    (∀ e, (uploadToAzure ⟨some u, .ret rcUp serrUp⟩).error = some e →
      ¬ u <:+: e) := by
  constructor
  · intro e he
    have herr : (backupProductionDb ts nowIso
        ⟨some u, .ret rcDump serrDump, sha, sz⟩ m).1.error
        = some (maskProdError u serrDump) := by
      unfold backupProductionDb
      simp [hne, hrcD]
    rw [herr] at he
    obtain rfl : maskProdError u serrDump = e := Option.some.inj he
    unfold maskProdError
    by_cases hin : u <:+: serrDump.take 500
    · rw [if_pos hin]
      exact pyReplace_no_self_occurrence u hne hstar _
    · rw [if_neg hin]
      exact hin
  · intro e he
    have herr : (uploadToAzure ⟨some u, .ret rcUp serrUp⟩).error
        = some ((pyReplace u STARS serrUp).take 500) := by
      unfold uploadToAzure
      simp [hrcU]
    rw [herr] at he
    obtain rfl : (pyReplace u STARS serrUp).take 500 = e := Option.some.inj he
    intro hinf
    exact pyReplace_no_self_occurrence u hne hstar serrUp
      (hinf.trans (take_within 500 (pyReplace u STARS serrUp)))

/-- C5 amended witness at a concrete URL and stderr. -/
theorem c5_dump_and_upload_scrub_secrets_witness :
    c5Url ≠ [] ∧ '*' ∉ c5Url ∧
    ((∀ e, (backupProductionDb "20260107_080000" "2026-01-07T08:00:00"
        ⟨some c5Url, .ret 1 c5Stderr, "", 0⟩ exManifest).1.error = some e →
      ¬ c5Url <:+: e) ∧
    (∀ e, (uploadToAzure ⟨some c5Url, .ret 1 c5Stderr⟩).error = some e →
      ¬ c5Url <:+: e)) :=
  ⟨by decide, by decide,
   c5_dump_and_upload_scrub_secrets "20260107_080000" "2026-01-07T08:00:00"
     "" 0 c5Url c5Stderr c5Stderr 1 1 exManifest (by decide) (by decide)
     (by decide) (by decide)⟩

end BackupDB
